import Mathlib

/-!
Verification of the Uniswap V3 tick/price/liquidity mathematics module
(`src/nodes/Uniswap/constants/tickMath.ts`, `src/nodes/Uniswap/utils/liquidityUtils.ts`,
and the tick utilities file).

Big integers (the JSBI values of the source) are embedded as `Int`.
`JSBI.divide` truncates the quotient toward zero, which is `Int.tdiv`.
Decimal-string boundaries of the source functions are dropped: the string
round trip is the identity on canonical decimal representations, so the
functions are embedded directly over `Int`.
-/

set_option maxRecDepth 100000

/-- Q96 constant for fixed point math, `2^96` (tickMath.ts). -/
def Q96 : Int := 2 ^ 96

/-- Minimum tick value (tickMath.ts). -/
def MIN_TICK : Int := -887272

/-- Maximum tick value (tickMath.ts). -/
def MAX_TICK : Int := 887272

/-- `getLiquidityForAmount0` (liquidityUtils.ts): `amount0 * (sqrtA * sqrtB / Q96) / (sqrtB - sqrtA)`,
both divisions truncating toward zero as JSBI.divide does. -/
def getLiquidityForAmount0 (sqrtPriceAX96 sqrtPriceBX96 amount0 : Int) : Int :=
  let intermediate := Int.tdiv (sqrtPriceAX96 * sqrtPriceBX96) Q96
  Int.tdiv (amount0 * intermediate) (sqrtPriceBX96 - sqrtPriceAX96)

/-- `getLiquidityForAmount1` (liquidityUtils.ts): `amount1 * Q96 / (sqrtB - sqrtA)`. -/
def getLiquidityForAmount1 (sqrtPriceAX96 sqrtPriceBX96 amount1 : Int) : Int :=
  Int.tdiv (amount1 * Q96) (sqrtPriceBX96 - sqrtPriceAX96)

/-- `getAmount0ForLiquidity` (liquidityUtils.ts): `liquidity * (sqrtB - sqrtA) * Q96 / (sqrtA * sqrtB)`. -/
def getAmount0ForLiquidity (sqrtPriceAX96 sqrtPriceBX96 liquidity : Int) : Int :=
  let diff := sqrtPriceBX96 - sqrtPriceAX96
  Int.tdiv (liquidity * diff * Q96) (sqrtPriceAX96 * sqrtPriceBX96)

/-- `getAmount1ForLiquidity` (liquidityUtils.ts): `liquidity * (sqrtB - sqrtA) / Q96`. -/
def getAmount1ForLiquidity (sqrtPriceAX96 sqrtPriceBX96 liquidity : Int) : Int :=
  let diff := sqrtPriceBX96 - sqrtPriceAX96
  Int.tdiv (liquidity * diff) Q96

/-- `calculateLiquidityFromAmounts` (liquidityUtils.ts): three way branch on the
position of the current sqrt price relative to the range. -/
def calculateLiquidityFromAmounts (sqrtPrice sqrtPriceA sqrtPriceB amt0 amt1 : Int) : Int :=
  if sqrtPrice ≤ sqrtPriceA then
    -- Current price below range - all token0
    getLiquidityForAmount0 sqrtPriceA sqrtPriceB amt0
  else if sqrtPrice < sqrtPriceB then
    -- Current price in range
    let liquidity0 := getLiquidityForAmount0 sqrtPrice sqrtPriceB amt0
    let liquidity1 := getLiquidityForAmount1 sqrtPriceA sqrtPrice amt1
    if liquidity0 < liquidity1 then liquidity0 else liquidity1
  else
    -- Current price above range - all token1
    getLiquidityForAmount1 sqrtPriceA sqrtPriceB amt1

/-- `calculateAmountsFromLiquidity` (liquidityUtils.ts): inverse three way branch,
returning the pair `(amount0, amount1)`. -/
def calculateAmountsFromLiquidity (sqrtPrice sqrtPriceA sqrtPriceB liq : Int) : Int × Int :=
  if sqrtPrice ≤ sqrtPriceA then
    -- Below range - all token0
    (getAmount0ForLiquidity sqrtPriceA sqrtPriceB liq, 0)
  else if sqrtPrice < sqrtPriceB then
    -- In range - both tokens
    (getAmount0ForLiquidity sqrtPrice sqrtPriceB liq,
     getAmount1ForLiquidity sqrtPriceA sqrtPrice liq)
  else
    -- Above range - all token1
    (0, getAmount1ForLiquidity sqrtPriceA sqrtPriceB liq)

/-- `calculateFees` (liquidityUtils.ts): `fees_i = (feeGrowthInsideI - feeGrowthInsideILast) * liquidity / 2^128`
with plain signed subtraction and truncating division; returns `(fees0, fees1)`. -/
def calculateFees (feeGrowthInside0X128 feeGrowthInside1X128 liquidity
    feeGrowthInside0LastX128 feeGrowthInside1LastX128 : Int) : Int × Int :=
  let Q128 : Int := 2 ^ 128
  let feeGrowth0 := feeGrowthInside0X128 - feeGrowthInside0LastX128
  let feeGrowth1 := feeGrowthInside1X128 - feeGrowthInside1LastX128
  (Int.tdiv (feeGrowth0 * liquidity) Q128, Int.tdiv (feeGrowth1 * liquidity) Q128)

/-- `Math.round(tick / tickSpacing)` of `nearestUsableTick` (tickMath.ts), in exact
rational arithmetic: round half toward positive infinity, `⌊t/s + 1/2⌋ = ⌊(2t+s)/(2s)⌋`.
For a positive divisor, `Int` division `/` (`Int.ediv`) is the floor.
For the tick spacings in use (1, 10, 60, 200) and ticks within the protocol bounds,
the double precision quotient of the source is always more than an ulp away from the
next half integer unless the exact quotient is itself a representable half integer,
so this exact model and the JavaScript evaluation round identically. -/
def jsRound (t s : Int) : Int := (2 * t + s) / (2 * s)

/-- `nearestUsableTick` (tickMath.ts): round the tick to the nearest multiple of the
spacing and replace results outside `[MIN_TICK, MAX_TICK]` by `MIN_TICK + s` or `MAX_TICK - s`. -/
def nearestUsableTick (tick tickSpacing : Int) : Int :=
  let rounded := jsRound tick tickSpacing * tickSpacing
  if rounded < MIN_TICK then MIN_TICK + tickSpacing
  else if MAX_TICK < rounded then MAX_TICK - tickSpacing
  else rounded

/-- Stated from the words of the specification, for comparison with `nearestUsableTick`:
the rounded tick clamped into the interval `[MIN_TICK + tickSpacing, MAX_TICK - tickSpacing]`. -/
def nearestUsableTickSpec (tick tickSpacing : Int) : Int :=
  max (MIN_TICK + tickSpacing) (min (MAX_TICK - tickSpacing) (jsRound tick tickSpacing * tickSpacing))

/-- `isPositionInRange` (tick utilities file): `currentTick >= tickLower && currentTick < tickUpper`. -/
def isPositionInRange (tickLower tickUpper currentTick : Int) : Bool :=
  decide (tickLower ≤ currentTick) && decide (currentTick < tickUpper)

/-- Result record of `validateTicks` (tick utilities file): `{valid, error?}`. -/
structure ValidationResult where
  valid : Bool
  error : Option String
deriving DecidableEq, Repr

/-- The JavaScript test `t % s !== 0` of `validateTicks`. JavaScript `%` takes the sign
of the dividend and yields `NaN` for a zero divisor, and `NaN !== 0` holds, so the test
succeeds exactly when the divisor is zero or does not divide the dividend. -/
def jsModNonzero (t s : Int) : Bool := s == 0 || !(decide (s ∣ t))

/-- `validateTicks` (tick utilities file): four checks in source order,
returning the first failing reason. -/
def validateTicks (tickLower tickUpper tickSpacing : Int) : ValidationResult :=
  if tickUpper ≤ tickLower then
    ⟨false, some "tickLower must be less than tickUpper"⟩
  else if tickLower < MIN_TICK ∨ MAX_TICK < tickUpper then
    ⟨false, some "Ticks out of valid range"⟩
  else if jsModNonzero tickLower tickSpacing then
    ⟨false, some "tickLower not aligned to tick spacing"⟩
  else if jsModNonzero tickUpper tickSpacing then
    ⟨false, some "tickUpper not aligned to tick spacing"⟩
  else
    ⟨true, none⟩

/-- Modelled from the spec: `sqrtPriceForTick(tick)`, the value `sqrt(1.0001^tick) * 2^96`
truncated to an integer (specification sections 4.2 and 8; the source computes it in
`tickToSqrtPriceX96` through floating point and a string conversion). For an even tick
`2h` the square root is exactly `1.0001^h = 10001^h / 10000^h`, so the truncation is an
exact integer division; the claims only use the even ticks -100, 100 and 200. -/
def sqrtPriceForTick (tick : Int) : Int :=
  if 0 ≤ tick then
    (10001 ^ (Int.tdiv tick 2).toNat * 2 ^ 96) / 10000 ^ (Int.tdiv tick 2).toNat
  else
    (10000 ^ (Int.tdiv (-tick) 2).toNat * 2 ^ 96) / 10001 ^ (Int.tdiv (-tick) 2).toNat

/-- Modelled from the spec: the string boundary inside `tickToSqrtPriceX96` (tickMath.ts).
The source converts the floored floating point value with `Number.prototype.toString` and
re-parses the string with `JSBI.BigInt`. ECMA-262 renders an integral Number as plain
decimal digits only below `10^21` and in exponential notation from `10^21` upward, and
`JSBI.BigInt` accepts only plain decimal digit strings and throws on exponential notation,
so the conversion of a non-negative integral value succeeds exactly below `10^21`. -/
def jsbiFromNumberString (v : Nat) : Option Nat :=
  if v < 10 ^ 21 then some v else none

/-- Modelled from the spec: `tickToSqrtPriceX96(0)`. At tick 0 every floating point step
of the source is exact (`1.0001^0 = 1`, `sqrt 1 = 1`, `1 * 2^96 = 2^96` is a representable
power of two, and `Math.floor` is the identity on it), so the function hands the Number
`2^96` to the string conversion boundary. -/
def tickToSqrtPriceX96AtZero : Option Nat := jsbiFromNumberString (2 ^ 96)

/-! ## Theorems -/

/-- Claim C5: whenever `sqrtPriceA < sqrtPrice < sqrtPriceB`, `calculateLiquidityFromAmounts`
returns the minimum of the candidate liquidity computed from `amount0` alone over
`[sqrtPrice, sqrtPriceB]` and the candidate liquidity computed from `amount1` alone over
`[sqrtPriceA, sqrtPrice]`. -/
theorem calculateLiquidityFromAmounts_in_range_min
    (sqrtPrice sqrtPriceA sqrtPriceB amt0 amt1 : Int)
    (hA : sqrtPriceA < sqrtPrice) (hB : sqrtPrice < sqrtPriceB) :
    calculateLiquidityFromAmounts sqrtPrice sqrtPriceA sqrtPriceB amt0 amt1 =
      min (getLiquidityForAmount0 sqrtPrice sqrtPriceB amt0)
        (getLiquidityForAmount1 sqrtPriceA sqrtPrice amt1) := by
  unfold calculateLiquidityFromAmounts
  rw [if_neg (by omega), if_pos hB]
  rcases lt_trichotomy (getLiquidityForAmount0 sqrtPrice sqrtPriceB amt0)
      (getLiquidityForAmount1 sqrtPriceA sqrtPrice amt1) with h | h | h
  · rw [if_pos h, min_eq_left h.le]
  · rw [if_neg (by omega), h, min_self]
  · rw [if_neg (by omega), min_eq_right h.le]

theorem calculateLiquidityFromAmounts_in_range_min_witness :
    (10 : Int) < 20 ∧ (20 : Int) < 30 ∧
      calculateLiquidityFromAmounts 20 10 30 1000 2000 =
        min (getLiquidityForAmount0 20 30 1000) (getLiquidityForAmount1 10 20 2000) :=
  ⟨by decide, by decide,
    calculateLiquidityFromAmounts_in_range_min 20 10 30 1000 2000 (by decide) (by decide)⟩

/-- Claim C6: for any liquidity and any range with `sqrtPriceA < sqrtPriceB`,
`calculateAmountsFromLiquidity` returns `amount1 = 0` when the current price is at or
below the range and `amount0 = 0` when it is at or above the range, so at most one
returned amount is nonzero outside the range. -/
theorem calculateAmountsFromLiquidity_out_of_range_zero
    (sqrtPrice sqrtPriceA sqrtPriceB liq : Int) (hAB : sqrtPriceA < sqrtPriceB) :
    (sqrtPrice ≤ sqrtPriceA →
      (calculateAmountsFromLiquidity sqrtPrice sqrtPriceA sqrtPriceB liq).2 = 0) ∧
    (sqrtPriceB ≤ sqrtPrice →
      (calculateAmountsFromLiquidity sqrtPrice sqrtPriceA sqrtPriceB liq).1 = 0) := by
  constructor <;> intro h <;> unfold calculateAmountsFromLiquidity
  · rw [if_pos h]
  · rw [if_neg (by omega), if_neg (by omega)]

theorem calculateAmountsFromLiquidity_out_of_range_zero_witness :
    (10 : Int) < 30 ∧
      ((5 : Int) ≤ 10 → (calculateAmountsFromLiquidity 5 10 30 7777).2 = 0) ∧
      ((30 : Int) ≤ 5 → (calculateAmountsFromLiquidity 5 10 30 7777).1 = 0) :=
  ⟨by decide,
    (calculateAmountsFromLiquidity_out_of_range_zero 5 10 30 7777 (by decide)).1,
    (calculateAmountsFromLiquidity_out_of_range_zero 5 10 30 7777 (by decide)).2⟩

/-- Claim C7: half open range membership. For ticks `L < U`, `isPositionInRange L U L`
is true, `isPositionInRange L U U` is false, and membership is exactly
`tickLower ≤ currentTick ∧ currentTick < tickUpper`. -/
theorem isPositionInRange_half_open (tickLower tickUpper : Int) (h : tickLower < tickUpper) :
    isPositionInRange tickLower tickUpper tickLower = true ∧
    isPositionInRange tickLower tickUpper tickUpper = false ∧
    ∀ currentTick : Int,
      isPositionInRange tickLower tickUpper currentTick = true ↔
        (tickLower ≤ currentTick ∧ currentTick < tickUpper) := by
  refine ⟨?_, ?_, ?_⟩
  · simp [isPositionInRange]; omega
  · simp [isPositionInRange]
  · intro c; simp [isPositionInRange]

theorem isPositionInRange_half_open_witness :
    (0 : Int) < 5 ∧
      (isPositionInRange 0 5 0 = true ∧ isPositionInRange 0 5 5 = false ∧
        ∀ c : Int, isPositionInRange 0 5 c = true ↔ ((0 : Int) ≤ c ∧ c < 5)) :=
  ⟨by decide, isPositionInRange_half_open 0 5 (by decide)⟩

/-! ## nearestUsableTick: clamp behavior and idempotence -/

/-- Helper: if the rounded multiple already lies within the tick bounds it is returned unchanged. -/
theorem nearestUsableTick_no_clamp (t s : Int)
    (h1 : MIN_TICK ≤ jsRound t s * s) (h2 : jsRound t s * s ≤ MAX_TICK) :
    nearestUsableTick t s = jsRound t s * s := by
  unfold nearestUsableTick
  rw [if_neg (by omega), if_neg (by omega)]

/-- Helper: `jsRound` returns a multiple of the spacing back unchanged. -/
theorem jsRound_multiple (c s : Int) (hs : 0 < s) : jsRound (c * s) s = c := by
  unfold jsRound
  have h : 2 * (c * s) + s = (1 + c * 2) * s := by ring
  rw [h, Int.mul_ediv_mul_of_pos_left _ 2 hs]
  omega

/-- Helper: a multiple of the spacing inside the tick bounds is a fixed point of
`nearestUsableTick`. -/
theorem nearestUsableTick_fixed (r s : Int) (hs : 0 < s) (hd : s ∣ r)
    (h1 : MIN_TICK ≤ r) (h2 : r ≤ MAX_TICK) : nearestUsableTick r s = r := by
  obtain ⟨c, rfl⟩ := hd
  have hr : jsRound (s * c) s = c := by rw [Int.mul_comm]; exact jsRound_multiple c s hs
  have hrs : jsRound (s * c) s * s = s * c := by rw [hr, Int.mul_comm]
  rw [nearestUsableTick_no_clamp _ _ (by omega) (by omega), hrs]

/-- Helper: `jsRound` is monotone in the tick for a positive spacing. -/
theorem jsRound_mono (s : Int) (hs : 0 < s) {a b : Int} (h : a ≤ b) :
    jsRound a s ≤ jsRound b s :=
  Int.ediv_le_ediv (by omega) (by omega)

/-- Claim C2 counterexample: at tick `-887272` with spacing 1 the rounded value is
`MIN_TICK` itself, which the code returns unchanged, while the claimed clamp into
`[MIN_TICK + 1, MAX_TICK - 1]` would give `MIN_TICK + 1`; in particular the result
does equal `MIN_TICK`. -/
theorem nearestUsableTick_margin_cex :
    nearestUsableTick (-887272) 1 = MIN_TICK ∧
      nearestUsableTickSpec (-887272) 1 = MIN_TICK + 1 ∧
      nearestUsableTick (-887272) 1 ≠ nearestUsableTickSpec (-887272) 1 := by
  refine ⟨by decide, by decide, by decide⟩

/-- Claim C2 (amended): for a positive spacing `s ≤ 887271` and a tick within bounds,
`nearestUsableTick` returns `round(t/s)*s` unchanged whenever that value lies in
`[MIN_TICK, MAX_TICK]` (no one spacing margin is applied there), and it agrees with the
clamp into `[MIN_TICK + s, MAX_TICK - s]` exactly when the rounded value is strictly
outside the tick bounds or already inside the margin interval. -/
theorem nearestUsableTick_clamp_behavior (t s : Int) (hs : 0 < s) (hsU : s ≤ 887271)
    (htL : MIN_TICK ≤ t) (htU : t ≤ MAX_TICK) :
    (MIN_TICK ≤ jsRound t s * s → jsRound t s * s ≤ MAX_TICK →
      nearestUsableTick t s = jsRound t s * s) ∧
    (nearestUsableTick t s = nearestUsableTickSpec t s ↔
      (jsRound t s * s < MIN_TICK ∨ MAX_TICK < jsRound t s * s ∨
        (MIN_TICK + s ≤ jsRound t s * s ∧ jsRound t s * s ≤ MAX_TICK - s))) := by
  simp only [nearestUsableTick, nearestUsableTickSpec, MIN_TICK, MAX_TICK] at htL htU ⊢
  generalize jsRound t s * s = r
  constructor
  · intro h1 h2
    rw [if_neg (by omega), if_neg (by omega)]
  · split_ifs with hA hB <;> rw [max_def, min_def] <;> split_ifs <;> omega

theorem nearestUsableTick_clamp_behavior_witness :
    ((0 : Int) < 60 ∧ (60 : Int) ≤ 887271 ∧ MIN_TICK ≤ (12345 : Int) ∧ (12345 : Int) ≤ MAX_TICK) ∧
    ((MIN_TICK ≤ jsRound 12345 60 * 60 → jsRound 12345 60 * 60 ≤ MAX_TICK →
        nearestUsableTick 12345 60 = jsRound 12345 60 * 60) ∧
      (nearestUsableTick 12345 60 = nearestUsableTickSpec 12345 60 ↔
        (jsRound 12345 60 * 60 < MIN_TICK ∨ MAX_TICK < jsRound 12345 60 * 60 ∨
          (MIN_TICK + 60 ≤ jsRound 12345 60 * 60 ∧ jsRound 12345 60 * 60 ≤ MAX_TICK - 60)))) :=
  ⟨⟨by decide, by decide, by decide, by decide⟩,
    nearestUsableTick_clamp_behavior 12345 60 (by decide) (by decide) (by decide) (by decide)⟩

/-- Claim C3 counterexample: snapping is not idempotent at the valid tick `-887272`
with spacing 60. The first application clamps to `MIN_TICK + 60 = -887212`, which is
not a multiple of 60, and the second application moves it to `-887220`. -/
theorem nearestUsableTick_idem_cex :
    nearestUsableTick (-887272) 60 = -887212 ∧
      nearestUsableTick (nearestUsableTick (-887272) 60) 60 = -887220 ∧
      nearestUsableTick (nearestUsableTick (-887272) 60) 60 ≠ nearestUsableTick (-887272) 60 := by
  refine ⟨by decide, by decide, by decide⟩

/-- Claim C3 (amended): snapping is idempotent for the tick spacings 1, 10 and 200 on
every tick within `[MIN_TICK, MAX_TICK]`. (For spacing 60 it fails near the bounds,
where the clamp target `MIN_TICK + 60` is not a multiple of 60; see the counterexample.) -/
theorem nearestUsableTick_idem (t s : Int) (htL : MIN_TICK ≤ t) (htU : t ≤ MAX_TICK)
    (hs : s = 1 ∨ s = 10 ∨ s = 200) :
    nearestUsableTick (nearestUsableTick t s) s = nearestUsableTick t s := by
  have hs0 : 0 < s := by rcases hs with rfl | rfl | rfl <;> decide
  simp only [MIN_TICK, MAX_TICK] at htL htU
  have hlo : jsRound (-887272) s ≤ jsRound t s := jsRound_mono s hs0 (by omega)
  have hhi : jsRound t s ≤ jsRound 887272 s := jsRound_mono s hs0 (by omega)
  have hin : MIN_TICK ≤ jsRound t s * s ∧ jsRound t s * s ≤ MAX_TICK := by
    simp only [MIN_TICK, MAX_TICK]
    rcases hs with rfl | rfl | rfl
    · have h1 : jsRound (-887272) 1 = -887272 := by decide
      have h2 : jsRound 887272 1 = 887272 := by decide
      omega
    · have h1 : jsRound (-887272) 10 = -88727 := by decide
      have h2 : jsRound 887272 10 = 88727 := by decide
      omega
    · have h1 : jsRound (-887272) 200 = -4436 := by decide
      have h2 : jsRound 887272 200 = 4436 := by decide
      omega
  rw [nearestUsableTick_no_clamp t s hin.1 hin.2]
  exact nearestUsableTick_fixed _ s hs0 ⟨jsRound t s, by ring⟩ hin.1 hin.2

theorem nearestUsableTick_idem_witness :
    (MIN_TICK ≤ (12347 : Int) ∧ (12347 : Int) ≤ MAX_TICK ∧
        ((200 : Int) = 1 ∨ (200 : Int) = 10 ∨ (200 : Int) = 200)) ∧
      nearestUsableTick (nearestUsableTick 12347 200) 200 = nearestUsableTick 12347 200 :=
  ⟨⟨by decide, by decide, by decide⟩,
    nearestUsableTick_idem 12347 200 (by decide) (by decide) (by decide)⟩

/-! ## validateTicks: check order and first failing reason -/

/-- Helper: for a nonzero spacing the JavaScript remainder test is exactly non divisibility. -/
theorem jsModNonzero_iff (t s : Int) (hs : s ≠ 0) : jsModNonzero t s = true ↔ ¬ s ∣ t := by
  simp [jsModNonzero, hs]

/-- Claim C9: `validateTicks` checks its conditions in the fixed source order and returns
only the first failing reason; it is valid, with no error, exactly when the bounds are
ordered, both are within `[MIN_TICK, MAX_TICK]` and both are divisible by the spacing. -/
theorem validateTicks_first_failure (tickLower tickUpper tickSpacing : Int)
    (hs : 0 < tickSpacing) :
    ((validateTicks tickLower tickUpper tickSpacing).valid = true ↔
      (tickLower < tickUpper ∧
        MIN_TICK ≤ tickLower ∧ tickLower ≤ MAX_TICK ∧
        MIN_TICK ≤ tickUpper ∧ tickUpper ≤ MAX_TICK ∧
        tickSpacing ∣ tickLower ∧ tickSpacing ∣ tickUpper)) ∧
    ((validateTicks tickLower tickUpper tickSpacing).valid = true ↔
      (validateTicks tickLower tickUpper tickSpacing).error = none) ∧
    (tickUpper ≤ tickLower →
      validateTicks tickLower tickUpper tickSpacing =
        ⟨false, some "tickLower must be less than tickUpper"⟩) ∧
    (tickLower < tickUpper → (tickLower < MIN_TICK ∨ MAX_TICK < tickUpper) →
      validateTicks tickLower tickUpper tickSpacing =
        ⟨false, some "Ticks out of valid range"⟩) ∧
    (tickLower < tickUpper → MIN_TICK ≤ tickLower → tickUpper ≤ MAX_TICK →
      ¬ tickSpacing ∣ tickLower →
      validateTicks tickLower tickUpper tickSpacing =
        ⟨false, some "tickLower not aligned to tick spacing"⟩) ∧
    (tickLower < tickUpper → MIN_TICK ≤ tickLower → tickUpper ≤ MAX_TICK →
      tickSpacing ∣ tickLower → ¬ tickSpacing ∣ tickUpper →
      validateTicks tickLower tickUpper tickSpacing =
        ⟨false, some "tickUpper not aligned to tick spacing"⟩) := by
  have hs0 : tickSpacing ≠ 0 := by omega
  unfold validateTicks
  split_ifs with h1 h2 h3 h4
  · exact ⟨iff_of_false (by simp) (by rintro ⟨hlt, -⟩; omega),
      iff_of_false (by simp) (by simp),
      fun _ => rfl,
      fun hlt _ => absurd hlt (by omega),
      fun hlt _ _ _ => absurd hlt (by omega),
      fun hlt _ _ _ _ => absurd hlt (by omega)⟩
  · exact ⟨iff_of_false (by simp) (by rintro ⟨-, hminL, -, -, hmaxU, -⟩; omega),
      iff_of_false (by simp) (by simp),
      fun h => absurd h h1,
      fun _ _ => rfl,
      fun _ hminL hmaxU _ => absurd h2 (by omega),
      fun _ hminL hmaxU _ _ => absurd h2 (by omega)⟩
  · have hndvdL : ¬ tickSpacing ∣ tickLower := (jsModNonzero_iff _ _ hs0).mp h3
    exact ⟨iff_of_false (by simp) (by rintro ⟨-, -, -, -, -, hd, -⟩; exact hndvdL hd),
      iff_of_false (by simp) (by simp),
      fun h => absurd h h1,
      fun _ hor => absurd hor h2,
      fun _ _ _ _ => rfl,
      fun _ _ _ hd _ => absurd hd hndvdL⟩
  · have hdvdL : tickSpacing ∣ tickLower := by
      by_contra hc; exact h3 ((jsModNonzero_iff _ _ hs0).mpr hc)
    have hndvdU : ¬ tickSpacing ∣ tickUpper := (jsModNonzero_iff _ _ hs0).mp h4
    exact ⟨iff_of_false (by simp) (by rintro ⟨-, -, -, -, -, -, hd⟩; exact hndvdU hd),
      iff_of_false (by simp) (by simp),
      fun h => absurd h h1,
      fun _ hor => absurd hor h2,
      fun _ _ _ hnd => absurd hdvdL hnd,
      fun _ _ _ _ _ => rfl⟩
  · have hdvdL : tickSpacing ∣ tickLower := by
      by_contra hc; exact h3 ((jsModNonzero_iff _ _ hs0).mpr hc)
    have hdvdU : tickSpacing ∣ tickUpper := by
      by_contra hc; exact h4 ((jsModNonzero_iff _ _ hs0).mpr hc)
    exact ⟨iff_of_true rfl ⟨by omega, by omega, by omega, by omega, by omega, hdvdL, hdvdU⟩,
      iff_of_true rfl rfl,
      fun h => absurd h h1,
      fun _ hor => absurd hor h2,
      fun _ _ _ hnd => absurd hdvdL hnd,
      fun _ _ _ _ hnd => absurd hdvdU hnd⟩

theorem validateTicks_first_failure_witness :
    (0 : Int) < 60 ∧
      ((validateTicks (-120) 180 60).valid = true ↔
        ((-120 : Int) < 180 ∧
          MIN_TICK ≤ (-120 : Int) ∧ (-120 : Int) ≤ MAX_TICK ∧
          MIN_TICK ≤ (180 : Int) ∧ (180 : Int) ≤ MAX_TICK ∧
          (60 : Int) ∣ (-120) ∧ (60 : Int) ∣ 180)) :=
  ⟨by decide, ((validateTicks_first_failure (-120) 180 60 (by decide)).1)⟩

/-! ## calculateFees: signed deltas without wraparound -/

/-- Claim C10 counterexample: with current fee growth 0, last snapshot 1 and liquidity 1
the delta is negative, yet the returned fee is 0, not a negative value (the truncating
division maps small negative magnitudes to zero). -/
theorem calculateFees_negative_delta_cex :
    (0 : Int) < 1 ∧ (calculateFees 0 0 1 1 0).1 = 0 ∧
      ¬ (calculateFees 0 0 1 1 0).1 < 0 := by
  refine ⟨by decide, by decide, by decide⟩

/-- Claim C10 (amended): `calculateFees` computes fee deltas by plain signed big integer
subtraction with no 256 bit wraparound. When the current snapshot is below the last
snapshot and liquidity is positive the returned fee is never a wrapped non negative
amount: it is at most 0, and strictly negative whenever the shortfall times the
liquidity reaches `2^128` (truncation toward zero sends smaller magnitudes to 0). -/
theorem calculateFees_negative_delta_nonpositive
    (g0 g1 liq g0last g1last : Int) (h : g0 < g0last) (hliq : 0 < liq) :
    (calculateFees g0 g1 liq g0last g1last).1 ≤ 0 ∧
      (2 ^ 128 ≤ (g0last - g0) * liq → (calculateFees g0 g1 liq g0last g1last).1 < 0) := by
  have hx : (0 : Int) ≤ (g0last - g0) * liq :=
    le_of_lt (mul_pos (by omega) hliq)
  have hneg : (g0 - g0last) * liq = -((g0last - g0) * liq) := by ring
  unfold calculateFees
  simp only [hneg, Int.neg_tdiv]
  constructor
  · have := Int.tdiv_nonneg hx (by norm_num : (0 : Int) ≤ 2 ^ 128)
    omega
  · intro hbig
    have heq : Int.tdiv ((g0last - g0) * liq) (2 ^ 128) = (g0last - g0) * liq / 2 ^ 128 :=
      Int.tdiv_eq_ediv hx (by norm_num)
    have hone : (1 : Int) ≤ (g0last - g0) * liq / 2 ^ 128 := by
      rw [Int.le_ediv_iff_mul_le (by norm_num)]
      omega
    omega

theorem calculateFees_negative_delta_nonpositive_witness :
    ((0 : Int) < 1 ∧ (0 : Int) < 2 ^ 128) ∧
      ((calculateFees 0 0 (2 ^ 128) 1 0).1 ≤ 0 ∧
        (2 ^ 128 ≤ ((1 : Int) - 0) * 2 ^ 128 → (calculateFees 0 0 (2 ^ 128) 1 0).1 < 0)) :=
  ⟨⟨by norm_num, by norm_num⟩,
    calculateFees_negative_delta_nonpositive 0 0 (2 ^ 128) 1 0 (by norm_num) (by norm_num)⟩

/-! ## Out of range scenario at ticks (-100, 100) with current tick 200 -/

/-- Claim C1 counterexample: with the current sqrt price at tick 200, above the range
`[tick -100, tick 100]`, and the positive liquidity `10^18`, the returned pair has
`amount0 = 0` (and a positive `amount1`), so the claimed `amount0 > 0 ∧ amount1 = 0`
fails: above the range the position is all token1, not all token0. -/
theorem calculateAmountsFromLiquidity_tick200_scenario_cex :
    ¬ (0 < (calculateAmountsFromLiquidity (sqrtPriceForTick 200) (sqrtPriceForTick (-100))
            (sqrtPriceForTick 100) 1000000000000000000).1 ∧
        (calculateAmountsFromLiquidity (sqrtPriceForTick 200) (sqrtPriceForTick (-100))
            (sqrtPriceForTick 100) 1000000000000000000).2 = 0) := by
  decide

/-- Claim C1 (amended): with the current sqrt price at tick 200 and the range
`[tick -100, tick 100]` (current price above the range), `calculateAmountsFromLiquidity`
returns `amount0 = 0` exactly, and `amount1 > 0` for every liquidity `L ≥ 101`
(for smaller positive `L` the truncating division can return `amount1 = 0`). -/
theorem calculateAmountsFromLiquidity_tick200_scenario (L : Int) (hL : 101 ≤ L) :
    (calculateAmountsFromLiquidity (sqrtPriceForTick 200) (sqrtPriceForTick (-100))
        (sqrtPriceForTick 100) L).1 = 0 ∧
      0 < (calculateAmountsFromLiquidity (sqrtPriceForTick 200) (sqrtPriceForTick (-100))
        (sqrtPriceForTick 100) L).2 := by
  have hA : ¬ sqrtPriceForTick 200 ≤ sqrtPriceForTick (-100) := by decide
  have hB : ¬ sqrtPriceForTick 200 < sqrtPriceForTick 100 := by decide
  unfold calculateAmountsFromLiquidity
  rw [if_neg hA, if_neg hB]
  refine ⟨rfl, ?_⟩
  unfold getAmount1ForLiquidity
  have hd0 : (0 : Int) ≤ sqrtPriceForTick 100 - sqrtPriceForTick (-100) := by decide
  have hQd : Q96 ≤ 101 * (sqrtPriceForTick 100 - sqrtPriceForTick (-100)) := by decide
  have hQpos : (0 : Int) < Q96 := by decide
  have hmul : 101 * (sqrtPriceForTick 100 - sqrtPriceForTick (-100)) ≤
      L * (sqrtPriceForTick 100 - sqrtPriceForTick (-100)) :=
    mul_le_mul_of_nonneg_right hL hd0
  have hx : (0 : Int) ≤ L * (sqrtPriceForTick 100 - sqrtPriceForTick (-100)) := by omega
  rw [Int.tdiv_eq_ediv hx (le_of_lt hQpos)]
  have hone : (1 : Int) ≤ L * (sqrtPriceForTick 100 - sqrtPriceForTick (-100)) / Q96 := by
    rw [Int.le_ediv_iff_mul_le hQpos]
    omega
  omega

theorem calculateAmountsFromLiquidity_tick200_scenario_witness :
    (101 : Int) ≤ 1000000 ∧
      ((calculateAmountsFromLiquidity (sqrtPriceForTick 200) (sqrtPriceForTick (-100))
          (sqrtPriceForTick 100) 1000000).1 = 0 ∧
        0 < (calculateAmountsFromLiquidity (sqrtPriceForTick 200) (sqrtPriceForTick (-100))
          (sqrtPriceForTick 100) 1000000).2) :=
  ⟨by norm_num, calculateAmountsFromLiquidity_tick200_scenario 1000000 (by norm_num)⟩

/-! ## tickToSqrtPriceX96 at tick zero -/

/-- Claim C4: the intended value at tick 0 is exactly `2^96` (the spec level
`sqrtPriceForTick 0` equals `Q96`), but the source conversion throws: the Number
`2^96` is at and beyond the `10^21` threshold where `Number.prototype.toString`
switches to exponential notation, which `JSBI.BigInt` rejects, so
`tickToSqrtPriceX96(0)` raises a SyntaxError instead of returning `2^96`. -/
theorem tickToSqrtPriceX96_zero_throws :
    sqrtPriceForTick 0 = Q96 ∧ tickToSqrtPriceX96AtZero = none := by
  refine ⟨by decide, by decide⟩
